import Mathlib

/-!
Shallow embedding of `lib/@empirica/core/src/player/classic/react/EmpiricaContext.tsx`.

The source is a React view-selection component: an ordered cascade of guards
over partially-loaded session state that picks exactly one screen.  We embed
one evaluation pass as pure functions over a `State` snapshot:

* `EmpiricaContext`   — the outer session gate (source lines 58–151),
* `EmpiricaInnerContext` — the inner game gate (source lines 162–199),
* `useAllReady`       — the readiness predicate (source lines 215–250),
* `renderGate`        — the composition: the outer gate, then, when it
  delegates, the inner gate on the same snapshot.

JavaScript truthiness of the attribute reads is made explicit: an absent
object is `Option.none`; a falsy attribute is `false`; the tri-state of
`useGame` (`undefined` while loading, `null`/absent, or a loaded game) is the
inductive `GameLoad`.  The unguarded `treatment!["playerCount"]` access (a
runtime TypeError when `treatment` is undefined) is modelled by `Except`:
`.error ()` is the thrown-exception outcome.
-/

namespace Empirica

/-- The `treatment` record on a game.  The `playerCount` key may be missing
(`undefined` in JS), which the source does not guard against. -/
structure Treatment where
  playerCount : Option Nat
  deriving DecidableEq, Repr

/-- A loaded game: truthiness of `game.get("status")`, the `hasEnded` flag,
and the `treatment` attribute (absent when `game.get("treatment")` is
undefined). -/
structure Game where
  status : Bool
  hasEnded : Bool
  treatment : Option Treatment
  deriving DecidableEq, Repr

/-- The tri-state result of `useGame()`: `undefined` while the game is still
loading, explicitly absent (`null`), or a loaded game.  The source
distinguishes `game === undefined` (line 93) from `!game` (line 116). -/
inductive GameLoad where
  | undef
  | absent
  | loaded (g : Game)
  deriving DecidableEq, Repr

/-- The player (identity) record: truthiness of the `ended` and `gameID`
attributes, the `urlParams` attribute (absent until captured), and presence
of the `player.game` / `player.round` / `player.stage` references. -/
structure Player where
  ended : Bool
  gameID : Bool
  urlParams : Option (List (String × String))
  game : Bool
  round : Bool
  stage : Bool
  deriving DecidableEq, Repr

/-- The globals bag; the core reads only `globals.get("experimentOpen")`. -/
structure Globals where
  experimentOpen : Bool
  deriving DecidableEq, Repr

/-- The five configuration flags of `EmpiricaContextProps` (all default
false). -/
structure Config where
  unmanagedGame : Bool
  unmanagedAssignment : Bool
  disableConsent : Bool
  disableNoGames : Bool
  disableURLParamsCapture : Bool
  deriving DecidableEq, Repr

/-- One consistent snapshot of every hook input read during a single
evaluation pass. -/
structure State where
  tajribaConnected : Bool
  participantConnected : Bool
  connecting : Bool
  hasPlayer : Bool
  consented : Bool
  globals : Option Globals
  player : Option Player
  game : GameLoad
  players : Option (List Player)
  round : Bool
  stage : Bool
  search : String
  cfg : Config
  deriving DecidableEq, Repr

/-- The screens the gates can decide on. -/
inductive Screen where
  | Connecting
  | Exit
  | Loading
  | NoGames
  | Consent
  | CreateIdentity
  | Lobby
  | Contents
  deriving DecidableEq, Repr

/-- Result of the outer gate: either a screen, or delegation (via the intro
step sequencer) to the inner gate. -/
inductive SessionDecision where
  | screen (c : Screen)
  | delegate
  deriving DecidableEq, Repr

/-- Truthiness of `player && player.get("ended")` (source line 87) / `player?.get("ended")`
(line 187). -/
def playerEnded : Option Player → Bool
  | some p => p.ended
  | none => false

/-- Truthiness of `player?.get("gameID")` (source line 101). -/
def playerGameID : Option Player → Bool
  | some p => p.gameID
  | none => false

/-- The read `player.get("urlParams")` (source line 121); `some` is any already-set
value (a JS object is truthy even when empty). -/
def playerURLParams : Option Player → Option (List (String × String))
  | some p => p.urlParams
  | none => none

/-- The test `game === undefined` (source line 93). -/
def gameUndef : GameLoad → Bool
  | .undef => true
  | _ => false

/-- The test `!game`: falsy covers both undefined and explicitly absent (source lines
116, 130, 174). -/
def gameFalsy : GameLoad → Bool
  | .loaded _ => false
  | _ => true

/-- Truthiness of `game && game.hasEnded` (source line 130). -/
def gameHasEnded : GameLoad → Bool
  | .loaded g => g.hasEnded
  | _ => false

/-- Truthiness of `Boolean(game.get("status"))` on a loaded game (source line 182). -/
def gameStatus : GameLoad → Bool
  | .loaded g => g.status
  | _ => false

/-- Truthiness of `globals.get("experimentOpen")` (source line 100). -/
def experimentOpen : Option Globals → Bool
  | some g => g.experimentOpen
  | none => false

/-- The JS comparison `players.length < playerCount` where `playerCount` may
be `undefined`: comparing a number with `undefined` is `false` (NaN
comparison), so a missing `playerCount` key never fails the size check
(source line 239). -/
def ltJS (l : Nat) : Option Nat → Bool
  | some n => decide (l < n)
  | none => false

/-- The reference `player.game` behind the possibly-absent player (JS short-circuit makes
the access safe in the source's disjunction, line 228). -/
def playerGameRef : Option Player → Bool
  | some p => p.game
  | none => false

/-- The reference `player.round` behind the possibly-absent player (source line 229). -/
def playerRoundRef : Option Player → Bool
  | some p => p.round
  | none => false

/-- The reference `player.stage` behind the possibly-absent player (source line 230). -/
def playerStageRef : Option Player → Bool
  | some p => p.stage
  | none => false

/-- The read `game.get("treatment")` on the hook result (source line 235). -/
def gameTreatment : GameLoad → Option Treatment
  | .loaded g => g.treatment
  | _ => none

/-- The underlying list of a loaded player set. -/
def playersList : Option (List Player) → List Player
  | some l => l
  | none => []

/-- The readiness predicate `useAllReady` (source lines 215–250): the single eight-way disjunctive
presence guard of lines 222–233, then the treatment read, the size check,
and the per-member loop.  Returns `.error ()` exactly when the unguarded
`treatment!["playerCount"]` access would throw, i.e. when all presence
checks pass but `game.get("treatment")` is undefined. -/
def useAllReady (s : State) : Except Unit Bool :=
  if s.player.isNone || s.players.isNone || !s.stage || !s.round || gameFalsy s.game ||
      !playerGameRef s.player || !playerRoundRef s.player || !playerStageRef s.player then
    .ok false
  else
    match gameTreatment s.game with
    | none => .error ()
    | some treatment =>
      if ltJS (playersList s.players).length treatment.playerCount then .ok false
      else if (playersList s.players).any (fun p => !p.game || !p.round || !p.stage) then .ok false
      else .ok true

/-- The outer session gate: the guard cascade of the `EmpiricaContext`
component body (source lines 83–150), as a pure screen decision.  The
URL-param capture side effect between lines 116 and 126 does not choose a
screen; it is modelled separately by `captureWrite`. -/
def EmpiricaContext (s : State) : SessionDecision :=
  if !s.tajribaConnected || s.connecting then .screen .Connecting
  else if playerEnded s.player then .screen .Exit
  else if s.globals.isNone ||
      (s.hasPlayer && (!s.participantConnected || s.player.isNone || gameUndef s.game)) then
    .screen .Loading
  else if !s.cfg.disableNoGames && !experimentOpen s.globals &&
      (!s.hasPlayer || !playerGameID s.player) then
    .screen .NoGames
  else if !s.cfg.disableConsent && !s.consented then .screen .Consent
  else if !s.hasPlayer then .screen .CreateIdentity
  else if s.player.isNone || (!s.cfg.unmanagedGame && gameFalsy s.game) then .screen .Loading
  else if s.cfg.unmanagedAssignment then .screen .Contents
  else if gameHasEnded s.game then
    if !playerEnded s.player then .screen .Loading else .screen .Exit
  else .delegate

/-- The inner game gate, the `EmpiricaInnerContext` component body (source
lines 162–199).  The `useAllReady` hook runs before any branch, so its
thrown TypeError propagates regardless of which branch would be taken. -/
def EmpiricaInnerContext (s : State) : Except Unit Screen :=
  match useAllReady s with
  | .error e => .error e
  | .ok allReady =>
    match s.game with
    | .undef | .absent =>
      if s.cfg.unmanagedGame then .ok .Contents else .ok .Loading
    | .loaded game =>
      if !game.status then .ok .Lobby
      else if game.hasEnded then
        if !playerEnded s.player then .ok .Loading else .ok .Exit
      else if s.cfg.unmanagedGame || allReady then .ok .Contents
      else .ok .Loading

/-- One full evaluation pass: the outer gate, then, when it delegates, the
inner gate on the same snapshot. -/
def renderGate (s : State) : Except Unit Screen :=
  match EmpiricaContext s with
  | .screen c => .ok c
  | .delegate => EmpiricaInnerContext s

/-! ## URL-param capture (source lines 120–124)

The one side effect of the component: when evaluation reaches line 121 (all
guards above it failed), capture is enabled, and `player.get("urlParams")`
is still unset, the query string is parsed and written onto the player.
`URLSearchParams` splitting is modelled structurally (split on `&`, then at
the first `=`, empty segments skipped); its percent/plus decoding is a
browser built-in outside this repository and is elided. -/

/-- Split a character list at every occurrence of the separator. -/
def splitOnChar (c : Char) : List Char → List (List Char)
  | [] => [[]]
  | x :: xs =>
    let rest := splitOnChar c xs
    if x = c then [] :: rest
    else
      match rest with
      | [] => [[x]]
      | r :: rs => (x :: r) :: rs

/-- Split one segment at its first `=`; `none` when the segment has no
`=`. -/
def breakAtEq : List Char → List Char × Option (List Char)
  | [] => ([], none)
  | x :: xs =>
    if x = '=' then ([], some xs)
    else
      let kv := breakAtEq xs
      (x :: kv.1, kv.2)

/-- One `key=value` segment, split at the first `=`; a segment with no `=`
maps to the empty value. -/
def parsePair (seg : List Char) : String × String :=
  match breakAtEq seg with
  | (k, none) => (String.mk k, "")
  | (k, some v) => (String.mk k, String.mk v)

/-- Model of `new URLSearchParams(search).entries()`: strip a leading `?`, split on
`&`, drop empty segments, split each at the first `=`. -/
def parseURLParams (search : String) : List (String × String) :=
  let cs :=
    match search.toList with
    | '?' :: rest => rest
    | cs => cs
  (splitOnChar '&' cs).filterMap (fun seg => if seg = [] then none else some (parsePair seg))

/-- Model of `Object.fromEntries`: later entries overwrite earlier ones with the same
key. -/
def fromEntries (l : List (String × String)) : List (String × String) :=
  l.foldl (fun acc kv => acc.filter (fun kv2 => kv2.1 ≠ kv.1) ++ [kv]) []

/-- Evaluation reaches source line 121: the seven screen guards above the
capture statement all failed. -/
def reachesCapture (s : State) : Bool :=
  !(!s.tajribaConnected || s.connecting) &&
  !(playerEnded s.player) &&
  !(s.globals.isNone ||
    (s.hasPlayer && (!s.participantConnected || s.player.isNone || gameUndef s.game))) &&
  !(!s.cfg.disableNoGames && !experimentOpen s.globals &&
    (!s.hasPlayer || !playerGameID s.player)) &&
  !(!s.cfg.disableConsent && !s.consented) &&
  s.hasPlayer &&
  !(s.player.isNone || (!s.cfg.unmanagedGame && gameFalsy s.game))

/-- The value written by the capture step during one pass, if any: source
lines 121–123.  `none` means no write occurs on this pass. -/
def captureWrite (s : State) : Option (List (String × String)) :=
  if reachesCapture s && !s.cfg.disableURLParamsCapture &&
      (playerURLParams s.player).isNone then
    some (fromEntries (parseURLParams s.search))
  else none

/-- The snapshot after `player.set("urlParams", ps)`. -/
def setURLParams (s : State) (ps : List (String × String)) : State :=
  { s with player := s.player.map (fun p => { p with urlParams := some ps }) }

/-- The snapshot after one full evaluation pass: the capture write applied
when it fired, otherwise unchanged. -/
def applyPass (s : State) : State :=
  match captureWrite s with
  | some ps => setURLParams s ps
  | none => s

/-- Evaluation reaches the game-has-ended guard at source line 130: the
capture point was reached and the `unmanagedAssignment` bypass did not
fire. -/
def reachesGameEndedGuard (s : State) : Bool :=
  reachesCapture s && !s.cfg.unmanagedAssignment

/-! ## The flat guard table

The spec describes the cascade as a priority-ordered guard table: the first
guard whose condition holds decides the screen.  `cascadeGuards` is that
table, written from the spec's ordering (§4.1 then §4.2), with nested
branches flattened; `firstWins` returns the screen of the first matching
guard.  The refinement theorem for C1 relates `renderGate` to this table. -/

/-- The screen of the first guard whose condition is true. -/
def firstWins {α : Type} : List (Bool × α) → Option α
  | [] => none
  | (true, a) :: _ => some a
  | (false, _) :: rest => firstWins rest

/-- The priority-ordered guard table of the combined cascade: the outer
gate's guards in source order, then (in place of delegation) the inner
gate's guards, with the final inner fallthrough as an always-true last
guard.  `allReady` is the result of the readiness predicate. -/
def cascadeGuards (s : State) (allReady : Bool) : List (Bool × Screen) :=
  [ (!s.tajribaConnected || s.connecting, .Connecting),
    (playerEnded s.player, .Exit),
    (s.globals.isNone ||
      (s.hasPlayer && (!s.participantConnected || s.player.isNone || gameUndef s.game)), .Loading),
    (!s.cfg.disableNoGames && !experimentOpen s.globals &&
      (!s.hasPlayer || !playerGameID s.player), .NoGames),
    (!s.cfg.disableConsent && !s.consented, .Consent),
    (!s.hasPlayer, .CreateIdentity),
    (s.player.isNone || (!s.cfg.unmanagedGame && gameFalsy s.game), .Loading),
    (s.cfg.unmanagedAssignment, .Contents),
    (gameHasEnded s.game && !playerEnded s.player, .Loading),
    (gameHasEnded s.game && playerEnded s.player, .Exit),
    (gameFalsy s.game && s.cfg.unmanagedGame, .Contents),
    (gameFalsy s.game, .Loading),
    (!gameStatus s.game, .Lobby),
    (gameHasEnded s.game && !playerEnded s.player, .Loading),
    (gameHasEnded s.game && playerEnded s.player, .Exit),
    (s.cfg.unmanagedGame || allReady, .Contents),
    (true, .Loading) ]

/-! ## Concrete snapshots

Fully-loaded reference snapshots used at concrete inputs in witnesses and
counterexamples below. -/

/-- A fully materialized player: ended false, assigned, refs present. -/
def basePlayer : Player :=
  { ended := false, gameID := true, urlParams := none,
    game := true, round := true, stage := true }

/-- A started, not-ended game with a well-formed treatment. -/
def baseGame : Game :=
  { status := true, hasEnded := false, treatment := some { playerCount := some 1 } }

/-- All flags off. -/
def baseConfig : Config :=
  { unmanagedGame := false, unmanagedAssignment := false, disableConsent := false,
    disableNoGames := false, disableURLParamsCapture := false }

/-- A fully-loaded mid-game snapshot: connected, consented, identity and
game present, one ready player. -/
def baseState : State :=
  { tajribaConnected := true, participantConnected := true, connecting := false,
    hasPlayer := true, consented := true, globals := some { experimentOpen := true },
    player := some basePlayer, game := .loaded baseGame, players := some [basePlayer],
    round := true, stage := true, search := "", cfg := baseConfig }

/-- The screen of a pass, `none` when the pass threw. -/
def screenOf : Except Unit Screen → Option Screen
  | .ok c => some c
  | .error _ => none

/-- Like `baseState`, with the game's `treatment` attribute undefined. -/
def noTreatmentState : State :=
  { baseState with game := .loaded { baseGame with treatment := none } }

/-- Like `baseState`, with the player already ended. -/
def endedPlayerState : State :=
  { baseState with player := some { basePlayer with ended := true } }

/-- Like `endedPlayerState`, while the transport is disconnected. -/
def endedDisconnectedState : State :=
  { endedPlayerState with tajribaConnected := false }

/-- Like `baseState`, with `unmanagedAssignment` and the game explicitly absent. -/
def absentGameBypassState : State :=
  { baseState with
      game := GameLoad.absent,
      cfg := { baseConfig with unmanagedAssignment := true } }

/-- Like `baseState`, with `unmanagedAssignment` set. -/
def bypassState : State :=
  { baseState with cfg := { baseConfig with unmanagedAssignment := true } }

/-- Like `baseState`, with the game ended (player not yet ended). -/
def endedGameState : State :=
  { baseState with game := .loaded { baseGame with hasEnded := true } }

/-- Like `endedGameState`, with the player also ended. -/
def endedGameEndedPlayerState : State :=
  { endedGameState with player := some { basePlayer with ended := true } }

/-- Like `baseState`, with a concrete query string to capture. -/
def captureState : State :=
  { baseState with search := "?a=1&b=2" }

/-- Like `baseState`, with three required players but only one connected. -/
def belowCountState : State :=
  { baseState with game := .loaded { baseGame with treatment := some { playerCount := some 3 } } }

/-- Like `baseState`, with a treatment whose `playerCount` key is missing and an
empty player set. -/
def noPlayerCountState : State :=
  { baseState with
      players := some [],
      game := .loaded { baseGame with treatment := some { playerCount := none } } }

/-!  # Theorems  -/

/-- Case analysis of one full pass against the flat guard table: whenever
the readiness predicate does not throw, the pass yields the screen of the
first matching guard. -/
lemma cascade_cases (s : State) (b : Bool) (h : useAllReady s = Except.ok b) :
    ∃ c : Screen, renderGate s = Except.ok c ∧ firstWins (cascadeGuards s b) = some c := by
  unfold renderGate EmpiricaContext EmpiricaInnerContext cascadeGuards
  rw [h]
  cases h1 : (!s.tajribaConnected || s.connecting) with
  | true => exact ⟨.Connecting, by simp [h1], by simp [firstWins, h1]⟩
  | false =>
  cases h2 : playerEnded s.player with
  | true => exact ⟨.Exit, by simp [h1, h2], by simp [firstWins, h1, h2]⟩
  | false =>
  cases h3 : (s.globals.isNone ||
      (s.hasPlayer && (!s.participantConnected || s.player.isNone || gameUndef s.game))) with
  | true => exact ⟨.Loading, by simp [h1, h2, h3], by simp [firstWins, h1, h2, h3]⟩
  | false =>
  cases h4 : (!s.cfg.disableNoGames && !experimentOpen s.globals &&
      (!s.hasPlayer || !playerGameID s.player)) with
  | true => exact ⟨.NoGames, by simp [h1, h2, h3, h4], by simp [firstWins, h1, h2, h3, h4]⟩
  | false =>
  cases h5 : (!s.cfg.disableConsent && !s.consented) with
  | true => exact ⟨.Consent, by simp [h1, h2, h3, h4, h5],
      by simp [firstWins, h1, h2, h3, h4, h5]⟩
  | false =>
  cases h6 : s.hasPlayer with
  | false => exact ⟨.CreateIdentity, by simp [h1, h2, h3, h4, h5, h6],
      by simp [firstWins, h1, h2, h3, h4, h5, h6]⟩
  | true =>
  cases h7 : (s.player.isNone || (!s.cfg.unmanagedGame && gameFalsy s.game)) with
  | true => exact ⟨.Loading, by simp [h1, h2, h3, h4, h5, h6, h7],
      by simp [firstWins, h1, h2, h3, h4, h5, h6, h7]⟩
  | false =>
  cases h8 : s.cfg.unmanagedAssignment with
  | true => exact ⟨.Contents, by simp [h1, h2, h3, h4, h5, h6, h7, h8],
      by simp [firstWins, h1, h2, h3, h4, h5, h6, h7, h8]⟩
  | false =>
  cases h9 : gameHasEnded s.game with
  | true => exact ⟨.Loading, by simp [h1, h2, h3, h4, h5, h6, h7, h8, h9, h2],
      by simp [firstWins, h1, h2, h3, h4, h5, h6, h7, h8, h9, h2]⟩
  | false =>
  cases hg : s.game with
  | undef =>
      have hu : s.cfg.unmanagedGame = true := by
        rw [hg] at h7
        exact ((by simpa [gameFalsy] using h7 :
          s.player.isSome = true ∧ s.cfg.unmanagedGame = true)).2
      exact ⟨.Contents, by simp [h1, h2, h3, h4, h5, h6, h7, h8, hu],
        by simp [firstWins, h1, h2, h3, h4, h5, h6, h7, h8, hu, gameFalsy, gameHasEnded]⟩
  | absent =>
      have hu : s.cfg.unmanagedGame = true := by
        rw [hg] at h7
        exact ((by simpa [gameFalsy] using h7 :
          s.player.isSome = true ∧ s.cfg.unmanagedGame = true)).2
      exact ⟨.Contents, by simp [h1, h2, h3, h4, h5, h6, h7, h8, hu],
        by simp [firstWins, h1, h2, h3, h4, h5, h6, h7, h8, hu, gameFalsy, gameHasEnded]⟩
  | loaded g =>
      rw [hg] at h9
      simp only [gameHasEnded] at h9
      cases hst : g.status with
      | false =>
          exact ⟨.Lobby, by simp [h1, h2, h3, h4, h5, h6, h7, h8, h9, hst],
            by simp [firstWins, h1, h2, h3, h4, h5, h6, h7, h8, h9, hst,
              gameFalsy, gameHasEnded, gameStatus]⟩
      | true =>
          cases hu : (s.cfg.unmanagedGame || b) with
          | true =>
              exact ⟨.Contents, by simp [h1, h2, h3, h4, h5, h6, h7, h8, h9, hst, hu],
                by simp [firstWins, h1, h2, h3, h4, h5, h6, h7, h8, h9, hst, hu,
                  gameFalsy, gameHasEnded, gameStatus]⟩
          | false =>
              exact ⟨.Loading, by simp [h1, h2, h3, h4, h5, h6, h7, h8, h9, hst, hu],
                by simp [firstWins, h1, h2, h3, h4, h5, h6, h7, h8, h9, hst, hu,
                  gameFalsy, gameHasEnded, gameStatus]⟩

/-- C1 (amended): whenever the readiness predicate does not hit its
unguarded treatment access, one evaluation of the session gate followed,
when delegated, by the game gate returns exactly one screen — never zero —
and that screen is the one of the first matching guard of the
priority-ordered cascade. -/
theorem renderGate_total_first_wins (s : State) (b : Bool)
    (h : useAllReady s = Except.ok b) :
    screenOf (renderGate s) ≠ none ∧
      firstWins (cascadeGuards s b) = screenOf (renderGate s) := by
  obtain ⟨c, hc1, hc2⟩ := cascade_cases s b h
  rw [hc1, hc2]
  exact ⟨by simp [screenOf], rfl⟩

/-- Witness for C1 (amended) at the fully-loaded snapshot. -/
theorem renderGate_total_first_wins_witness :
    screenOf (renderGate baseState) ≠ none ∧
      firstWins (cascadeGuards baseState true) = screenOf (renderGate baseState) :=
  renderGate_total_first_wins baseState true rfl

/-- C1 counterexample: on a snapshot that delegates to the game gate with
every readiness precondition satisfied but `game.treatment` undefined, the
pass throws (the readiness predicate's unguarded access), so no screen at
all is produced — the cascade is not total as claimed. -/
theorem renderGate_error_on_missing_treatment :
    renderGate noTreatmentState = Except.error () := rfl

/-- The member loop of `useAllReady` as an `all` over the player set. -/
lemma any_missing_ref_eq (ps : List Player) :
    ps.any (fun p => !p.game || !p.round || !p.stage) =
      !ps.all (fun p => p.game && p.round && p.stage) := by
  induction ps with
  | nil => rfl
  | cons a l ih =>
      cases ha : a.game <;> cases hb : a.round <;> cases hc : a.stage <;>
        simp [List.any_cons, List.all_cons, ha, hb, hc, ih]

/-- C2: the readiness predicate returns false whenever the player set is
smaller than `treatment.playerCount`; it returns true only when every
readiness input is present, the identity's own game/round/stage references
are set, the player set reaches any defined headcount, and every member has
its game/round/stage references; and any absence in the presence guard
yields not ready. -/
theorem useAllReady_spec (s : State) :
    (∀ ps g t n, s.players = some ps → s.game = GameLoad.loaded g →
      g.treatment = some t → t.playerCount = some n → ps.length < n →
      useAllReady s = Except.ok false)
    ∧ (useAllReady s = Except.ok true →
        ∃ p ps g, s.player = some p ∧ s.players = some ps ∧ s.stage = true ∧ s.round = true ∧
          s.game = GameLoad.loaded g ∧ p.game = true ∧ p.round = true ∧ p.stage = true ∧
          (∀ t n, g.treatment = some t → t.playerCount = some n → n ≤ ps.length) ∧
          (∀ q ∈ ps, q.game = true ∧ q.round = true ∧ q.stage = true))
    ∧ ((s.player.isNone || s.players.isNone || !s.stage || !s.round || gameFalsy s.game ||
        !playerGameRef s.player || !playerRoundRef s.player ||
        !playerStageRef s.player) = true →
      useAllReady s = Except.ok false) := by
  refine ⟨?_, ?_, ?_⟩
  · intro ps g t n hps hg ht hn hlen
    unfold useAllReady
    cases hbig : (s.player.isNone || s.players.isNone || !s.stage || !s.round ||
        gameFalsy s.game || !playerGameRef s.player || !playerRoundRef s.player ||
        !playerStageRef s.player) with
    | true => simp [hbig]
    | false =>
      simp only [hbig, Bool.false_eq_true, if_false, if_neg]
      simp [gameTreatment, hg, ht, hn, playersList, hps, ltJS, hlen]
  · intro h
    unfold useAllReady at h
    cases hbig : (s.player.isNone || s.players.isNone || !s.stage || !s.round ||
        gameFalsy s.game || !playerGameRef s.player || !playerRoundRef s.player ||
        !playerStageRef s.player) with
    | true => rw [hbig] at h; simp at h
    | false =>
      rw [hbig] at h
      simp only [Bool.false_eq_true, if_false] at h
      simp only [Bool.or_eq_false_iff, Bool.not_eq_false'] at hbig
      obtain ⟨⟨⟨⟨⟨⟨⟨hpn, hpsn⟩, hst⟩, hrd⟩, hgf⟩, hg1⟩, hr1⟩, hs1⟩ := hbig
      cases hp : s.player with
      | none => rw [hp] at hpn; simp at hpn
      | some p =>
      cases hps : s.players with
      | none => rw [hps] at hpsn; simp at hpsn
      | some ps =>
      cases hg : s.game with
      | undef => rw [hg] at hgf; simp [gameFalsy] at hgf
      | absent => rw [hg] at hgf; simp [gameFalsy] at hgf
      | loaded g =>
        rw [hg] at h
        refine ⟨p, ps, g, rfl, rfl, hst, hrd, rfl, ?_, ?_, ?_, ?_, ?_⟩
        · rw [hp] at hg1; simpa [playerGameRef] using hg1
        · rw [hp] at hr1; simpa [playerRoundRef] using hr1
        · rw [hp] at hs1; simpa [playerStageRef] using hs1
        · intro t n ht hn
          rw [hps] at h
          simp only [gameTreatment, ht, playersList] at h
          cases hlt : ltJS ps.length t.playerCount with
          | true => rw [hlt] at h; simp at h
          | false => rw [hn] at hlt; simp [ltJS] at hlt; omega
        · intro q hq
          rw [hps] at h
          cases htr : g.treatment with
          | none => simp [gameTreatment, htr] at h
          | some t =>
            simp only [gameTreatment, htr, playersList] at h
            cases hlt : ltJS ps.length t.playerCount with
            | true => rw [hlt] at h; simp at h
            | false =>
              rw [hlt] at h
              simp only [Bool.false_eq_true, if_false] at h
              cases hany : ps.any (fun p => !p.game || !p.round || !p.stage) with
              | true => simp [hany] at h
              | false =>
                rw [List.any_eq_false] at hany
                have := hany q hq
                simpa [and_assoc] using this
  · intro hbig
    unfold useAllReady
    simp [hbig]

/-- Witness for C2 at a snapshot requiring three players with only one
present: not ready. -/
theorem useAllReady_spec_witness : useAllReady belowCountState = Except.ok false :=
  (useAllReady_spec belowCountState).1 [basePlayer]
    { baseGame with treatment := some { playerCount := some 3 } }
    { playerCount := some 3 } 3 rfl rfl rfl rfl (by decide)

/-- C8: when every presence check passes (identity, player set, stage,
round, game all present and the identity's references set) but the game's
`treatment` attribute is absent, the readiness predicate hits the unguarded
`treatment!["playerCount"]` access and throws: its evaluation is not
total. -/
theorem useAllReady_throws_on_missing_treatment (s : State) (p : Player) (ps : List Player)
    (g : Game) (hp : s.player = some p) (hps : s.players = some ps) (hst : s.stage = true)
    (hr : s.round = true) (hg : s.game = GameLoad.loaded g) (ht : g.treatment = none)
    (h1 : p.game = true) (h2 : p.round = true) (h3 : p.stage = true) :
    useAllReady s = Except.error () := by
  unfold useAllReady
  simp [hp, hps, hst, hr, hg, ht, gameFalsy, gameTreatment,
    playerGameRef, playerRoundRef, playerStageRef, h1, h2, h3]

/-- Witness for C8 at the concrete no-treatment snapshot. -/
theorem useAllReady_throws_witness : useAllReady noTreatmentState = Except.error () :=
  useAllReady_throws_on_missing_treatment noTreatmentState basePlayer [basePlayer]
    { baseGame with treatment := none } rfl rfl rfl rfl rfl rfl rfl rfl rfl

/-- C9: when the treatment exists but its `playerCount` key is undefined,
the JS size comparison is false for every player-set size, so readiness is
decided solely by the presence checks and each member's references — it can
return true for a player set of any size. -/
theorem useAllReady_undefined_playerCount (s : State) (p : Player) (ps : List Player)
    (g : Game) (t : Treatment) (hp : s.player = some p) (hps : s.players = some ps)
    (hst : s.stage = true) (hr : s.round = true) (hg : s.game = GameLoad.loaded g)
    (ht : g.treatment = some t) (hpc : t.playerCount = none)
    (h1 : p.game = true) (h2 : p.round = true) (h3 : p.stage = true) :
    ltJS ps.length t.playerCount = false ∧
      useAllReady s = Except.ok (ps.all (fun q => q.game && q.round && q.stage)) := by
  constructor
  · rw [hpc]; rfl
  · unfold useAllReady
    simp only [hp, hps, hst, hr, hg, ht, hpc, gameFalsy, gameTreatment, playersList,
      playerGameRef, playerRoundRef, playerStageRef, h1, h2, h3, Option.isNone_some,
      Bool.not_true, Bool.or_self, Bool.or_false, Bool.false_or, Bool.false_eq_true, if_false]
    rw [any_missing_ref_eq]
    cases hall : ps.all (fun q => q.game && q.round && q.stage) <;> simp [hall, ltJS]

/-- Witness for C9: an empty player set is ready when `playerCount` is
undefined. -/
theorem useAllReady_undefined_playerCount_witness :
    useAllReady noPlayerCountState = Except.ok true := by
  have := useAllReady_undefined_playerCount noPlayerCountState basePlayer []
    { baseGame with treatment := some { playerCount := none } } { playerCount := none }
    rfl rfl rfl rfl rfl rfl rfl rfl rfl rfl
  simpa using this.2



/-- C3 (amended): once the identity's `ended` flag is true, the session
gate returns Exit on every snapshot where the transport is connected and
identity resolution is not in progress; on every snapshot whatsoever it
never shows Loading, Consent, NoGames, CreateIdentity, Lobby, or the
contents. -/
theorem ended_terminal (s : State) (h : playerEnded s.player = true) :
    (s.tajribaConnected = true → s.connecting = false → renderGate s = Except.ok Screen.Exit)
    ∧ renderGate s ≠ Except.ok Screen.Loading
    ∧ renderGate s ≠ Except.ok Screen.Consent
    ∧ renderGate s ≠ Except.ok Screen.NoGames
    ∧ renderGate s ≠ Except.ok Screen.CreateIdentity
    ∧ renderGate s ≠ Except.ok Screen.Lobby
    ∧ renderGate s ≠ Except.ok Screen.Contents := by
  unfold renderGate EmpiricaContext
  cases h1 : (!s.tajribaConnected || s.connecting) with
  | true =>
      refine ⟨?_, ?_⟩
      · intro ht hc; rw [ht, hc] at h1; simp at h1
      · simp [h1]
  | false => simp [h1, h]

/-- Witness for C3 (amended) at the ended-player snapshot. -/
theorem ended_terminal_witness : renderGate endedPlayerState = Except.ok Screen.Exit :=
  (ended_terminal endedPlayerState rfl).1 rfl rfl

/-- C3 counterexample: with `ended` true but the transport disconnected,
the connectivity guard precedes the Exit guard, so the gate returns
Connecting, not Exit — the claim's "regardless of all other input fields"
fails on the connectivity fields. -/
theorem ended_disconnected_counterexample :
    playerEnded endedDisconnectedState.player = true ∧
      renderGate endedDisconnectedState = Except.ok Screen.Connecting ∧
      renderGate endedDisconnectedState ≠ Except.ok Screen.Exit := by
  refine ⟨rfl, rfl, ?_⟩
  have hval : renderGate endedDisconnectedState = Except.ok Screen.Connecting := rfl
  rw [hval]; simp

/-- C4 (amended): with `unmanagedAssignment` set, on every snapshot that
reaches the bypass guard — the identity exists and the connection, config,
consent, identity-creation, and game-loading guards have all passed — the
contents render immediately, with no further gating of game, round, or
stage (a game that has already ended still renders the contents). -/
theorem unmanagedAssignment_bypass (s : State) (h : s.cfg.unmanagedAssignment = true)
    (hr : reachesCapture s = true) : renderGate s = Except.ok Screen.Contents := by
  have hc := hr
  simp only [reachesCapture, Bool.and_eq_true, Bool.not_eq_true'] at hc
  obtain ⟨⟨⟨⟨⟨⟨h1, h2⟩, h3⟩, h4⟩, h5⟩, h6⟩, h7⟩ := hc
  unfold renderGate EmpiricaContext
  simp only [h1, h3, h4, h5, h7]
  simp only [h2, h6, h]
  simp

/-- Witness for C4 (amended). -/
theorem unmanagedAssignment_bypass_witness : renderGate bypassState = Except.ok Screen.Contents :=
  unmanagedAssignment_bypass bypassState rfl rfl

/-- C4 counterexample: with `unmanagedAssignment` set and the identity
present, a snapshot whose game is explicitly absent (and `unmanagedGame`
off) hits the game-loading guard at source line 116 before the bypass at
line 126 and renders Loading, not the contents. -/
theorem unmanagedAssignment_counterexample :
    absentGameBypassState.cfg.unmanagedAssignment = true ∧
      absentGameBypassState.player.isSome = true ∧
      renderGate absentGameBypassState = Except.ok Screen.Loading ∧
      renderGate absentGameBypassState ≠ Except.ok Screen.Contents := by
  refine ⟨rfl, rfl, rfl, ?_⟩
  have hval : renderGate absentGameBypassState = Except.ok Screen.Loading := rfl
  rw [hval]; simp

/-- C5: when the game has ended, a full pass returns Exit once the
identity's own `ended` flag is true (transport up), returns Loading at the
session gate's game-ended guard while `ended` is still false, and the game
gate's own game-ended guard returns Loading or Exit by the identity's
`ended` flag. -/
theorem game_ended_gating (s : State) (hend : gameHasEnded s.game = true) :
    (s.tajribaConnected = true → s.connecting = false → playerEnded s.player = true →
      renderGate s = Except.ok Screen.Exit)
    ∧ (reachesGameEndedGuard s = true → renderGate s = Except.ok Screen.Loading)
    ∧ (∀ g b, s.game = GameLoad.loaded g → g.status = true → useAllReady s = Except.ok b →
      EmpiricaInnerContext s =
        Except.ok (if playerEnded s.player then Screen.Exit else Screen.Loading)) := by
  refine ⟨?_, ?_, ?_⟩
  · intro ht hc hp
    unfold renderGate EmpiricaContext
    simp [ht, hc, hp]
  · intro hr
    simp only [reachesGameEndedGuard, reachesCapture, Bool.and_eq_true, Bool.not_eq_true'] at hr
    obtain ⟨⟨⟨⟨⟨⟨⟨h1, h2⟩, h3⟩, h4⟩, h5⟩, h6⟩, h7⟩, h8⟩ := hr
    unfold renderGate EmpiricaContext
    simp only [h1, h3, h4, h5, h7]
    simp only [h2, h6, h8, hend]
    simp
  · intro g b hg hst hb
    unfold EmpiricaInnerContext
    rw [hb, hg]
    rw [hg] at hend
    simp only [gameHasEnded] at hend
    cases hpe : playerEnded s.player <;> simp [hst, hend, hpe]

/-- Witness for C5: ended game with identity not yet ended yields Loading;
the inner gate yields Exit once the identity has ended. -/
theorem game_ended_gating_witness :
    renderGate endedGameState = Except.ok Screen.Loading ∧
      EmpiricaInnerContext endedGameEndedPlayerState = Except.ok Screen.Exit := by
  constructor
  · exact (game_ended_gating endedGameState rfl).2.1 rfl
  · have := (game_ended_gating endedGameEndedPlayerState rfl).2.2
      { baseGame with hasEnded := true } true rfl rfl rfl
    simpa [endedGameEndedPlayerState, endedGameState, basePlayer, playerEnded] using this

/-- Inversion on the screen of a successful pass: NoGames can only arise
with `disableNoGames` off, and Exit only with the identity's `ended` flag
true. -/
lemma renderGate_screen_inv (s : State) (c : Screen) (h : renderGate s = Except.ok c) :
    (c = Screen.NoGames → s.cfg.disableNoGames = false) ∧
    (c = Screen.Exit → playerEnded s.player = true) := by
  unfold renderGate EmpiricaContext EmpiricaInnerContext at h
  cases h1 : (!s.tajribaConnected || s.connecting) with
  | true =>
      simp only [h1] at h; simp at h; subst h; exact ⟨by simp, by simp⟩
  | false =>
  cases h2 : playerEnded s.player with
  | true =>
      simp only [h1, h2] at h; simp at h; subst h
      exact ⟨by simp, fun _ => rfl⟩
  | false =>
  cases h3 : (s.globals.isNone ||
      (s.hasPlayer && (!s.participantConnected || s.player.isNone || gameUndef s.game))) with
  | true =>
      simp only [h1, h3] at h; simp only [h2] at h; simp at h; subst h
      exact ⟨by simp, by simp⟩
  | false =>
  cases h4 : (!s.cfg.disableNoGames && !experimentOpen s.globals &&
      (!s.hasPlayer || !playerGameID s.player)) with
  | true =>
      simp only [h1, h3, h4] at h; simp only [h2] at h; simp at h; subst h
      refine ⟨fun _ => ?_, by simp⟩
      simp only [Bool.and_eq_true, Bool.not_eq_true'] at h4
      exact h4.1.1
  | false =>
  cases h5 : (!s.cfg.disableConsent && !s.consented) with
  | true =>
      simp only [h1, h3, h4, h5] at h; simp only [h2] at h; simp at h; subst h
      exact ⟨by simp, by simp⟩
  | false =>
  cases h6 : s.hasPlayer with
  | false =>
      simp only [h1, h3, h4, h5] at h; simp only [h2, h6] at h; simp at h; subst h
      exact ⟨by simp, by simp⟩
  | true =>
  cases h7 : (s.player.isNone || (!s.cfg.unmanagedGame && gameFalsy s.game)) with
  | true =>
      simp only [h1, h3, h4, h5, h7] at h; simp only [h2, h6] at h; simp at h; subst h
      exact ⟨by simp, by simp⟩
  | false =>
  cases h8 : s.cfg.unmanagedAssignment with
  | true =>
      simp only [h1, h3, h4, h5, h7] at h; simp only [h2, h6, h8] at h; simp at h; subst h
      exact ⟨by simp, by simp⟩
  | false =>
  cases h9 : gameHasEnded s.game with
  | true =>
      simp only [h1, h3, h4, h5, h7] at h; simp only [h2, h6, h8, h9] at h; simp at h; subst h
      exact ⟨by simp, by simp⟩
  | false =>
  cases hua : useAllReady s with
  | error e =>
      simp only [h1, h3, h4, h5, h7] at h; simp only [h2, h6, h8, h9, hua] at h; simp at h
  | ok b =>
  simp only [h1, h3, h4, h5, h7] at h
  simp only [h2, h6, h8, h9, hua] at h
  cases hg : s.game with
  | undef =>
      rw [hg] at h
      cases hug : s.cfg.unmanagedGame with
      | true => simp only [hug] at h; simp at h; subst h; exact ⟨by simp, by simp⟩
      | false => simp only [hug] at h; simp at h; subst h; exact ⟨by simp, by simp⟩
  | absent =>
      rw [hg] at h
      cases hug : s.cfg.unmanagedGame with
      | true => simp only [hug] at h; simp at h; subst h; exact ⟨by simp, by simp⟩
      | false => simp only [hug] at h; simp at h; subst h; exact ⟨by simp, by simp⟩
  | loaded g =>
      rw [hg] at h
      rw [hg] at h9; simp only [gameHasEnded] at h9
      cases hst : g.status with
      | false =>
          simp only [hst] at h; simp at h; subst h; exact ⟨by simp, by simp⟩
      | true =>
          cases hug : s.cfg.unmanagedGame with
          | true =>
              simp only [hst, h9, hug] at h; simp at h; subst h; exact ⟨by simp, by simp⟩
          | false =>
            cases hb : b with
            | true =>
                simp only [hst, h9, hug, hb] at h; simp at h; subst h
                exact ⟨by simp, by simp⟩
            | false =>
                simp only [hst, h9, hug, hb] at h; simp at h; subst h
                exact ⟨by simp, by simp⟩

/-- C7: with `disableNoGames` set, no snapshot whatsoever renders the
NoGames screen. -/
theorem disableNoGames_never_NoGames (s : State) (h : s.cfg.disableNoGames = true) :
    renderGate s ≠ Except.ok Screen.NoGames := by
  intro hcon
  have hinv := (renderGate_screen_inv s Screen.NoGames hcon).1 rfl
  rw [h] at hinv
  exact Bool.noConfusion hinv

/-- Witness for C7 at a closed-experiment, unassigned-identity snapshot
with `disableNoGames` set. -/
theorem disableNoGames_witness :
    renderGate { baseState with
      globals := some { experimentOpen := false },
      player := some { basePlayer with gameID := false },
      cfg := { baseConfig with disableNoGames := true } } ≠ Except.ok Screen.NoGames :=
  disableNoGames_never_NoGames _ rfl

/-- C10: whenever evaluation reaches the session gate's game-has-ended
guard, the identity exists with `ended` false (the earlier Exit guard
already handled `ended` true), so that guard only ever returns Loading; and
a pass returns Exit only when the identity's `ended` flag is true. -/
theorem sessionGate_exit_unreachable (s : State) :
    (reachesGameEndedGuard s = true →
      playerEnded s.player = false ∧
      (gameHasEnded s.game = true → renderGate s = Except.ok Screen.Loading))
    ∧ (renderGate s = Except.ok Screen.Exit → playerEnded s.player = true) := by
  constructor
  · intro hr
    have hr2 := hr
    simp only [reachesGameEndedGuard, reachesCapture, Bool.and_eq_true, Bool.not_eq_true'] at hr2
    obtain ⟨⟨⟨⟨⟨⟨⟨h1, h2⟩, h3⟩, h4⟩, h5⟩, h6⟩, h7⟩, h8⟩ := hr2
    refine ⟨h2, fun hend => ?_⟩
    unfold renderGate EmpiricaContext
    simp only [h1, h3, h4, h5, h7]
    simp only [h2, h6, h8, hend]
    simp
  · intro hex
    exact (renderGate_screen_inv s Screen.Exit hex).2 rfl

/-- Witness for C10 at the ended-game snapshot. -/
theorem sessionGate_exit_unreachable_witness :
    renderGate endedGameState = Except.ok Screen.Loading ∧
      playerEnded endedGameState.player = false :=
  ⟨((sessionGate_exit_unreachable endedGameState).1 rfl).2 rfl,
    ((sessionGate_exit_unreachable endedGameState).1 rfl).1⟩

/-- C6: URL-param capture is at-most-once and idempotent: a pass reaching
the capture step with capture enabled and `urlParams` unset writes the
parsed query string; a pass with `urlParams` already set writes nothing;
after a write the next pass writes nothing; the write never alters the
screen chosen on the same snapshot; and `?a=1&b=2` parses to the flat map
`[(a, 1), (b, 2)]`. -/
theorem urlParams_capture_once (s : State) :
    (s.cfg.disableURLParamsCapture = false → playerURLParams s.player = none →
      reachesCapture s = true →
      captureWrite s = some (fromEntries (parseURLParams s.search)))
    ∧ (∀ ps, playerURLParams s.player = some ps → captureWrite s = none)
    ∧ (∀ ps, captureWrite s = some ps → captureWrite (applyPass s) = none)
    ∧ (∀ ps, renderGate (setURLParams s ps) = renderGate s)
    ∧ fromEntries (parseURLParams "?a=1&b=2") = [("a", "1"), ("b", "2")] := by
  refine ⟨?_, ?_, ?_, ?_, by decide⟩
  · intro hd hu hr
    unfold captureWrite
    simp [hr, hd, hu]
  · intro ps hps
    unfold captureWrite
    simp [hps]
  · intro ps hps
    have hcond : reachesCapture s = true := by
      unfold captureWrite at hps
      by_cases hb : (reachesCapture s && !s.cfg.disableURLParamsCapture &&
          (playerURLParams s.player).isNone) = true
      · simp only [Bool.and_eq_true] at hb; exact hb.1.1
      · simp [hb] at hps
    cases hp : s.player with
    | none => exfalso; simp [reachesCapture, hp] at hcond
    | some p =>
      unfold applyPass
      rw [hps]
      unfold captureWrite
      simp [setURLParams, hp, playerURLParams]
  · intro ps
    obtain ⟨taj, pc, conn, hp2, cons, glob, pl, gm, pls, rnd, stg, srch, cfg⟩ := s
    cases pl with
    | none => rfl
    | some p => cases p; rfl

/-- Witness for C6: the concrete query string is captured once and not
re-captured on the next pass. -/
theorem urlParams_capture_once_witness :
    captureWrite captureState = some [("a", "1"), ("b", "2")] ∧
      captureWrite (applyPass captureState) = none := by
  have h1 := (urlParams_capture_once captureState).1 rfl rfl rfl
  have h1c : captureWrite captureState = some [("a", "1"), ("b", "2")] := by rw [h1]; decide
  exact ⟨h1c, (urlParams_capture_once captureState).2.2.1 [("a", "1"), ("b", "2")] h1c⟩


end Empirica
